import Mathlib

/-!
Shallow embedding of the `wordpress-automation` content pipeline
(`src/models/content_models.py`, `src/models/state.py`,
`src/utils/perplexity_client.py`, `src/nodes/information_collection.py`,
`src/nodes/blog_writing.py`) and proofs about its claims.

Python `float` arithmetic on the credibility/quality constants is modelled
with exact rationals (`ℚ`); every constant involved is a small decimal and
the code only ever adds a handful of them, so all comparisons used by the
program (`>= 0.6`, `min(1.0, ...)`) agree with the exact values.
Python lists become `List`, `None`-able values become `Option`, and code
paths that raise become `Except`-valued functions.
-/

namespace WordpressAutomation

/-- `ContentType` enum of `content_models.py`: the three content categories. -/
inductive ContentType where
  | basic_concept
  | latest_trend
  | expert_opinion
deriving DecidableEq, Repr

/-- `SourceInfo` model of `content_models.py`: one retrieved source.
`credibility_score` is a rational standing for the Python float in [0,1];
the wall-clock fields of the original are irrelevant to every claim and the
optional `published_date`/`author` fields are kept as `Option`s. -/
structure SourceInfo where
  url : String
  title : String
  summary : String
  content : String := ""
  credibility_score : ℚ := 0
  content_type : ContentType
  published_date : Option String := none
  author : Option String := none
deriving DecidableEq, Repr

/-- `CollectedContent` model of `content_models.py`.  Note: the model
declares exactly three per-type source lists (`basic_concepts`,
`latest_trends`, `expert_opinions`) — there is no `practical_cases` field,
even though other modules access one.  `collection_timestamp` is the wall
clock in the source and is kept as an uninterpreted string. -/
structure CollectedContent where
  topic : String
  basic_concepts : List SourceInfo := []
  latest_trends : List SourceInfo := []
  expert_opinions : List SourceInfo := []
  collection_timestamp : String := ""
  total_sources : Nat := 0
deriving DecidableEq, Repr

/-- `CollectedContent.add_source`: append the source to the list matching
its content type, then recompute `total_sources` as the length of the
concatenation of the three lists (line 46 of `content_models.py`). -/
def CollectedContent.add_source (c : CollectedContent) (s : SourceInfo) :
    CollectedContent :=
  let c' : CollectedContent :=
    match s.content_type with
    | .basic_concept => { c with basic_concepts := c.basic_concepts ++ [s] }
    | .latest_trend => { c with latest_trends := c.latest_trends ++ [s] }
    | .expert_opinion => { c with expert_opinions := c.expert_opinions ++ [s] }
  { c' with
    total_sources :=
      (c'.basic_concepts ++ c'.latest_trends ++ c'.expert_opinions).length }

/-- `CollectedContent.get_all_sources`: the three lists concatenated in
declaration order. -/
def CollectedContent.get_all_sources (c : CollectedContent) :
    List SourceInfo :=
  c.basic_concepts ++ c.latest_trends ++ c.expert_opinions

/-- `CollectedContent.get_sources_by_type`. -/
def CollectedContent.get_sources_by_type (c : CollectedContent)
    (t : ContentType) : List SourceInfo :=
  match t with
  | .basic_concept => c.basic_concepts
  | .latest_trend => c.latest_trends
  | .expert_opinion => c.expert_opinions

/-- Python attribute access `collected_content.<name>` for a list-of-sources
attribute, as pydantic resolves it: the declared fields are exactly
`basic_concepts`, `latest_trends` and `expert_opinions`; reading any other
name (in particular `practical_cases`) raises `AttributeError`, modelled as
`none`. -/
def CollectedContent.getListAttr (c : CollectedContent) (name : String) :
    Option (List SourceInfo) :=
  if name = "basic_concepts" then some c.basic_concepts
  else if name = "latest_trends" then some c.latest_trends
  else if name = "expert_opinions" then some c.expert_opinions
  else none

/-- `BlogSection` model of `content_models.py`. -/
structure BlogSection where
  title : String
  content : String
  section_type : String
  image_placeholder : Option String := none
deriving DecidableEq, Repr

/-- `BlogArticle` model of `content_models.py`.  `estimated_read_time` and
`word_count` are `Nat` (the Python fields only ever hold non-negative
integers: defaults 5 and 0, `max(1, _ // 300)`, and a character/word
count).  The wall-clock `creation_timestamp` stays an uninterpreted
string. -/
structure BlogArticle where
  title : String
  subtitle : Option String := none
  content : String
  sections : List BlogSection := []
  meta_tags : List String := []
  keywords : List String := []
  category : String := "일반"
  estimated_read_time : Nat := 5
  image_placeholders : List String := []
  creation_timestamp : String := ""
  word_count : Nat := 0
deriving DecidableEq, Repr

/-- `BlogArticle.add_section`: append the section, extend the body text
with `"\n\n## {title}\n\n{content}"`, record the image placeholder when
present.  Note it does not touch `word_count`. -/
def BlogArticle.add_section (a : BlogArticle) (s : BlogSection) :
    BlogArticle :=
  let a' : BlogArticle :=
    { a with
      sections := a.sections ++ [s]
      content := a.content ++ "\n\n## " ++ s.title ++ "\n\n" ++ s.content }
  match s.image_placeholder with
  | some p => { a' with image_placeholders := a'.image_placeholders ++ [p] }
  | none => a'

/-- A Hangul syllable, the character class `[가-힣]` of
`calculate_word_count`. -/
def isHangulSyllable (c : Char) : Bool :=
  '가' ≤ c && c ≤ '힣'

/-- An ASCII letter, the character class `[a-zA-Z]`. -/
def isAsciiLetter (c : Char) : Bool :=
  ('a' ≤ c && c ≤ 'z') || ('A' ≤ c && c ≤ 'Z')

/-- A regex word character (`\w`), deciding the `\b` boundaries in
`calculate_word_count`'s pattern.  Python's `re` is Unicode-aware; this
model covers the scripts that occur in the program (ASCII plus Hangul
syllables) together with digits and the underscore. -/
def isRegexWordChar (c : Char) : Bool :=
  isAsciiLetter c || ('0' ≤ c && c ≤ '9') || c = '_' || isHangulSyllable c

/-- Count of matches of `\b[a-zA-Z]+\b`: maximal ASCII-letter runs whose
neighbouring characters (or the text edges) are not word characters.
State: `inRun` — currently inside a letter run; `runValid` — the run's left
boundary was a valid `\b`; `prevW` — the previous character was a word
character. -/
def englishWordAux : List Char → Bool → Bool → Bool → Nat
  | [], inRun, runValid, _ => if inRun && runValid then 1 else 0
  | c :: cs, inRun, runValid, prevW =>
    if isAsciiLetter c then
      if inRun then englishWordAux cs true runValid true
      else englishWordAux cs true (!prevW) true
    else
      (if inRun && runValid && !(isRegexWordChar c) then 1 else 0) +
        englishWordAux cs false false (isRegexWordChar c)

/-- `len(re.findall(r'\b[a-zA-Z]+\b', s))`. -/
def englishWordCount (s : String) : Nat :=
  englishWordAux s.data false false false

/-- `len(re.findall(r'[가-힣]', s))`. -/
def koreanCharCount (s : String) : Nat :=
  (s.data.filter isHangulSyllable).length

/-- The word-count formula of `BlogArticle.calculate_word_count`:
Hangul-character count plus English-word count of the body text. -/
def wordCountOf (s : String) : Nat :=
  koreanCharCount s + englishWordCount s

/-- `BlogArticle.calculate_word_count`: store `wordCountOf content` in
`word_count`. -/
def BlogArticle.calculate_word_count (a : BlogArticle) : BlogArticle :=
  { a with word_count := wordCountOf a.content }

/-- `BlogArticle.estimate_read_time`: if `word_count == 0` first recompute
it from the body, then store `max(1, word_count // 300)`. -/
def BlogArticle.estimate_read_time (a : BlogArticle) : BlogArticle :=
  let a' := if a.word_count = 0 then a.calculate_word_count else a
  { a' with estimated_read_time := max 1 (a'.word_count / 300) }

/-- `SearchQuery` model of `content_models.py`. -/
structure SearchQuery where
  query : String
  content_type : ContentType
  language : String := "ko"
  max_results : Nat := 5
deriving DecidableEq, Repr

/-- Python's substring test `needle in hay`. -/
def strIn (needle hay : String) : Bool :=
  decide (needle.data <:+: hay.data)

/-- Python `s.lower()`, character-wise (`Char.toLower` lowers the ASCII
range, which covers every constant the program compares against). -/
def pyLower (s : String) : String :=
  String.mk (s.data.map Char.toLower)

/-- Python `s.strip()`: remove whitespace from both ends. -/
def pyStrip (s : String) : String :=
  String.mk
    (((s.data.dropWhile Char.isWhitespace).reverse.dropWhile
      Char.isWhitespace).reverse)

/-- Python `s.startswith(pre)`. -/
def pyStartsWith (pre s : String) : Bool :=
  pre.data.isPrefixOf s.data

/-- Python `s[n:]` (slicing counts characters). -/
def pyDrop (n : Nat) (s : String) : String :=
  String.mk (s.data.drop n)

/-- Python `s.split(c)` on a single separator character, over the
character list. -/
def splitOnChar (c : Char) : List Char → List (List Char)
  | [] => [[]]
  | x :: xs =>
    if x = c then [] :: splitOnChar c xs
    else
      match splitOnChar c xs with
      | [] => [[x]]
      | h :: t => (x :: h) :: t

/-- Python `content.split('\n')`. -/
def pySplitLines (s : String) : List String :=
  (splitOnChar '\n' s.data).map String.mk

/-- One entry of the `sources` list handed to `_search_with_type` /
`_calculate_credibility`: a Python dict read only through
`.get("url"/"title"/"snippet", default)`, so each key is an `Option`. -/
structure SourceData where
  url : Option String := none
  title : Option String := none
  snippet : Option String := none
deriving DecidableEq, Repr

/-- `PerplexityResponse` model of `perplexity_client.py`. -/
structure PerplexityResponse where
  content : String
  sources : List SourceData := []
  query : String := ""
deriving DecidableEq, Repr

/-- The fixed trusted-domain allow-list of `_calculate_credibility`. -/
def trusted_domains : List String :=
  ["wikipedia", "naver", "daum", "google", "microsoft",
   "github", "stackoverflow", "medium", "tistory", "blog.naver"]

/-- The fixed quality-signal title substrings of `_calculate_credibility`. -/
def quality_title_keywords : List String :=
  ["가이드", "방법", "튜토리얼", "분석", "리뷰"]

/-- The `for domain in trusted_domains: if domain in url: score += 0.2;
break` loop: +0.2 on the first allow-list entry occurring in the URL,
nothing afterwards. -/
def domainBonus : List String → String → ℚ
  | [], _ => 0
  | d :: ds, url => if strIn d url then 2/10 else domainBonus ds url

/-- `PerplexityClient._calculate_credibility`: base 0.5; +0.2 on a trusted
domain (first match only); +0.1 when the lower-cased title is longer than
10 characters and contains a quality keyword; +0.1 flat recency bonus;
clamped to at most 1.0. -/
def calculate_credibility (sd : SourceData) : ℚ :=
  let url := pyLower (sd.url.getD "")
  let title := pyLower (sd.title.getD "")
  let score : ℚ := 1/2
  let score := score + domainBonus trusted_domains url
  let score :=
    if 10 < title.length &&
        quality_title_keywords.any (fun k => strIn k title) then
      score + 1/10
    else score
  let score := score + 1/10
  min 1 score

/-- `PerplexityClient._search_with_type`, with the underlying `search`
call's outcome passed in explicitly (`Except` models raising): on any
exception it logs and returns `[]`; on success it converts each source
dict into a `SourceInfo`, storing the full response content only on the
first source and scoring each with `_calculate_credibility`. -/
def search_with_type (q : SearchQuery)
    (outcome : Except String PerplexityResponse) : List SourceInfo :=
  match outcome with
  | .error _ => []
  | .ok resp =>
    resp.sources.enum.map fun p =>
      { url := p.2.url.getD ""
        title := p.2.title.getD ("검색 결과 " ++ toString (p.1 + 1))
        summary := p.2.snippet.getD ""
        content := if p.1 = 0 then resp.content else ""
        credibility_score := calculate_credibility p.2
        content_type := q.content_type }

/-- The result dict of `multi_search`, keyed by the three content types
(its three keys are created up front and never added to). -/
structure SearchResults where
  basic_concept : List SourceInfo := []
  latest_trend : List SourceInfo := []
  expert_opinion : List SourceInfo := []
deriving DecidableEq, Repr

/-- `results[t]`. -/
def SearchResults.get (r : SearchResults) : ContentType → List SourceInfo
  | .basic_concept => r.basic_concept
  | .latest_trend => r.latest_trend
  | .expert_opinion => r.expert_opinion

/-- `results[t].extend(ss)`. -/
def SearchResults.extend (r : SearchResults) (t : ContentType)
    (ss : List SourceInfo) : SearchResults :=
  match t with
  | .basic_concept => { r with basic_concept := r.basic_concept ++ ss }
  | .latest_trend => { r with latest_trend := r.latest_trend ++ ss }
  | .expert_opinion => { r with expert_opinion := r.expert_opinion ++ ss }

/-- `PerplexityClient.multi_search`: run `_search_with_type` for every
query (each query is paired with its own `search` outcome) and extend the
per-type result lists in sequence.  `_search_with_type` swallows every
exception (returning `[]`), so the `isinstance(result, Exception)` guard
in the source never fires and each failed query simply contributes no
sources. -/
def multi_search
    (qrs : List (SearchQuery × Except String PerplexityResponse)) :
    SearchResults :=
  qrs.foldl (fun acc p => acc.extend p.1.content_type
    (search_with_type p.1 p.2)) {}

/-- `WorkflowStatus` enum of `state.py`. -/
inductive WorkflowStatus where
  | pending
  | collecting
  | writing
  | reviewing
  | completed
  | failed
deriving DecidableEq, Repr

/-- The credibility threshold `0.6` of the collection node's high-quality
filter (`information_collection.py` line 65). -/
def high_quality_threshold : ℚ := 6/10

/-- The dict returned by `information_collection_node` (absent keys are
`none` / `[]`); `errors` and `logs` hold the messages this run appended. -/
structure CollectionResult where
  status : WorkflowStatus
  collected_content : Option CollectedContent := none
  current_step : Option String := none
  progress_percentage : Option Nat := none
  errors : List String := []
  logs : List String := []
deriving DecidableEq, Repr

/-- `information_collection_node`, with the `multi_search` return value
passed in (the network is the oracle).  The node folds every returned
source into a fresh `CollectedContent` (dict iteration order is key
insertion order: basic, latest, expert); a zero total is the explicit
failure branch; otherwise it filters the high-credibility subset, logs a
warning when that subset has fewer than 3 entries, and then builds the
`node_outputs` record — whose `"practical_cases"` entry reads
`collected_content.practical_cases`, a field `CollectedContent` does not
declare, so pydantic raises `AttributeError` and the surrounding
`except Exception` returns the failed update instead of the success
dict. -/
def information_collection_node (topic : String) (results : SearchResults) :
    CollectionResult :=
  let collected :=
    (results.get .basic_concept ++ results.get .latest_trend ++
      results.get .expert_opinion).foldl
      CollectedContent.add_source { topic := topic }
  if collected.total_sources = 0 then
    { status := .failed
      collected_content := none
      errors := ["'" ++ topic ++ "' 주제에 대한 정보를 찾을 수 없습니다"] }
  else
    let high_quality := collected.get_all_sources.filter
      (fun s => decide (high_quality_threshold ≤ s.credibility_score))
    let warn_logs :=
      if high_quality.length < 3 then
        ["경고: 고품질 소스 " ++ toString high_quality.length ++ "개만 발견"]
      else []
    match collected.getListAttr "practical_cases" with
    | some _ =>
      { status := .writing
        collected_content := some collected
        current_step := some "블로그 글 작성 준비"
        progress_percentage := some 100
        logs := warn_logs }
    | none =>
      { status := .failed
        errors :=
          ["정보 수집 중 오류 발생: 'CollectedContent' object has no " ++
            "attribute 'practical_cases'"]
        logs := warn_logs }

/-- The validation dict built by `validate_content_for_writing`. -/
structure WritingValidation where
  is_sufficient : Bool
  issues : List String
  recommendations : List String
deriving DecidableEq, Repr

/-- The `AttributeError` text raised on reading the undeclared
`practical_cases` field. -/
def practicalCasesError : String :=
  "AttributeError: 'CollectedContent' object has no attribute " ++
    "'practical_cases'"

/-- `validate_content_for_writing` (`blog_writing.py` 131–180).  After the
minimum-source check, the content-diversity count reads
`collected_content.practical_cases` — an undeclared field — so the
function raises `AttributeError` before ever returning; the remaining
checks are embedded as written but are unreachable. -/
def validate_content_for_writing (c : CollectedContent) :
    Except String WritingValidation :=
  let v0 : WritingValidation :=
    { is_sufficient := true, issues := [], recommendations := [] }
  let v1 :=
    if c.total_sources < 3 then
      { is_sufficient := false
        issues := v0.issues ++
          ["소스 수 부족: " ++ toString c.total_sources ++ "개"]
        recommendations := v0.recommendations ++ ["최소 3개 이상의 소스 필요"] }
    else v0
  match c.getListAttr "practical_cases" with
  | none => .error practicalCasesError
  | some practical_cases =>
    let content_types_count : Nat :=
      (if 0 < c.basic_concepts.length then 1 else 0) +
      (if 0 < c.latest_trends.length then 1 else 0) +
      (if 0 < practical_cases.length then 1 else 0) +
      (if 0 < c.expert_opinions.length then 1 else 0)
    let v2 :=
      if content_types_count < 2 then
        { v1 with
          issues := v1.issues ++ ["콘텐츠 타입 다양성 부족"]
          recommendations := v1.recommendations ++
            ["최소 2개 이상의 콘텐츠 타입 필요"] }
      else v1
    let all_sources := c.get_all_sources
    let avg_credibility : ℚ :=
      if all_sources.length = 0 then 0
      else (all_sources.map (·.credibility_score)).sum / all_sources.length
    let v3 :=
      if avg_credibility < 4/10 then
        { v2 with
          issues := v2.issues ++ ["평균 신뢰도 낮음"]
          recommendations := v2.recommendations ++ ["더 신뢰할 수 있는 소스 필요"] }
      else v2
    let total_content_length : Nat :=
      (all_sources.map (fun s => s.summary.length + s.content.length)).sum
    let v4 :=
      if total_content_length < 500 then
        { v3 with
          issues := v3.issues ++ ["수집된 콘텐츠 양 부족"]
          recommendations := v3.recommendations ++ ["더 많은 정보 수집 필요"] }
      else v3
    .ok v4

/-- The length sub-score of `validate_generated_article`. -/
def length_factor (wc : Nat) : ℚ :=
  if 1000 ≤ wc ∧ wc ≤ 4000 then 1
  else if (500 ≤ wc ∧ wc < 1000) ∨ (4000 < wc ∧ wc ≤ 6000) then 7/10
  else 3/10

/-- The structure sub-score of `validate_generated_article`. -/
def structure_factor (sc : Nat) : ℚ :=
  if 3 ≤ sc ∧ sc ≤ 7 then 1
  else if (2 ≤ sc ∧ sc < 3) ∨ (7 < sc ∧ sc ≤ 10) then 7/10
  else 3/10

/-- The metadata sub-score of `validate_generated_article`: 0.3 for a
title longer than 5 characters, 0.3 for at least 3 meta tags, 0.2 for at
least 3 keywords, 0.2 for a non-empty category, capped at 1.0 (the Python
truthiness guards `article.title and ...` are the non-emptiness
conjuncts). -/
def metadata_factor (a : BlogArticle) : ℚ :=
  let m : ℚ := 0
  let m := if a.title ≠ "" ∧ 5 < a.title.length then m + 3/10 else m
  let m := if a.meta_tags ≠ [] ∧ 3 ≤ a.meta_tags.length then m + 3/10 else m
  let m := if a.keywords ≠ [] ∧ 3 ≤ a.keywords.length then m + 2/10 else m
  let m := if a.category ≠ "" then m + 2/10 else m
  min 1 m

/-- The image-coverage sub-score of `validate_generated_article`, against
`expected = max(1, sections_count // 2)`. -/
def images_factor (imageCount sectionsCount : Nat) : ℚ :=
  let expected := max 1 (sectionsCount / 2)
  if expected ≤ imageCount then 1
  else if 0 < imageCount then 6/10
  else 2/10

/-- The overall quality score of `validate_generated_article`:
`sum(quality_factors.values()) / len(quality_factors)` where the factors
dict holds exactly the four sub-scores. -/
def quality_score (a : BlogArticle) : ℚ :=
  (length_factor a.word_count + structure_factor a.sections.length +
    metadata_factor a +
    images_factor a.image_placeholders.length a.sections.length) / 4

/-- One content-type block of `create_content_summary`: nothing when the
list is empty (the Python truthiness guard), otherwise the header plus a
`- title: summary` line for the first three sources and a blank line. -/
def summaryBlock (header : String) (ss : List SourceInfo) : String :=
  if ss = [] then ""
  else
    "== " ++ header ++ " ==\n" ++
      String.join ((ss.take 3).map
        (fun s => "- " ++ s.title ++ ": " ++ s.summary ++ "\n")) ++ "\n"

/-- `create_content_summary` (`blog_writing.py` 345–373).  The third block
guard evaluates `collected_content.practical_cases`, an undeclared field,
so the function raises `AttributeError` there; the remaining blocks are
embedded as written but unreachable. -/
def create_content_summary (c : CollectedContent) : Except String String :=
  let s := "주제: " ++ c.topic ++ "\n\n"
  let s := s ++ summaryBlock "기본 개념" c.basic_concepts
  let s := s ++ summaryBlock "최신 트렌드" c.latest_trends
  match c.getListAttr "practical_cases" with
  | none => .error practicalCasesError
  | some practical_cases =>
    let s := s ++ summaryBlock "실무 활용 사례" practical_cases
    let s := s ++ summaryBlock "전문가 의견" c.expert_opinions
    .ok s

/-- `line.strip().startswith('## ')`: the line opens a new section. -/
def isH2Line (l : String) : Bool :=
  pyStartsWith "## " (pyStrip l)

/-- `line.strip().startswith('# ')`: the line is a first-level heading
(note `"## x".startswith("# ")` is false, so second-level headings never
match). -/
def isH1Line (l : String) : Bool :=
  pyStartsWith "# " (pyStrip l)

/-- `line.strip()[2:].strip()`: the text of a first-level heading. -/
def h1Title (l : String) : String :=
  pyStrip (pyDrop 2 (pyStrip l))

/-- `line.strip()[3:].strip()`: the text of a second-level heading. -/
def h2Title (l : String) : String :=
  pyStrip (pyDrop 3 (pyStrip l))

/-- The title-extraction loop of `create_blog_article_from_content`: the
first line whose stripped form starts with `# `, else the fallback
`"{topic}에 대한 완전 가이드"`. -/
def extractTitle (lines : List String) (topic : String) : String :=
  match lines.find? isH1Line with
  | some l => h1Title l
  | none => topic ++ "에 대한 완전 가이드"

/-- Saving the current section when a new `## ` heading (or the end of the
text) is reached: nothing is saved while no section is open. -/
def flushSection : Option String → String → List BlogSection
  | none, _ => []
  | some t, acc => [{ title := t, content := pyStrip acc, section_type := "general" }]

/-- The section-building loop of `create_blog_article_from_content`:
state is the currently open section title (`current_section`) and its
accumulated body (`section_content`); a `## ` line flushes the open
section and opens a new one, every other line is appended to the body
followed by a newline; the final section is flushed at the end. -/
def sectionLoop : List String → Option String → String → List BlogSection
  | [], cur, acc => flushSection cur acc
  | l :: ls, cur, acc =>
    if isH2Line l then
      flushSection cur acc ++ sectionLoop ls (some (h2Title l)) ""
    else
      sectionLoop ls cur (acc ++ l ++ "\n")

/-- The sections parsed from the response lines. -/
def parseSections (lines : List String) : List BlogSection :=
  sectionLoop lines none ""

/-- `classify_category_simple` (`blog_writing.py` 438–449). -/
def classify_category_simple (topic : String) : String :=
  let t := pyLower topic
  if ["한의원", "의료", "건강", "치료"].any (fun w => strIn w t) then "건강"
  else if ["기술", "개발", "ai", "프로그래밍"].any (fun w => strIn w t) then "기술"
  else if ["비즈니스", "마케팅", "창업"].any (fun w => strIn w t) then "비즈니스"
  else "일반"

/-- `create_blog_article_from_content` (`blog_writing.py` 376–435): split
the raw response on newlines, extract the title and sections, build the
default keyword list, construct the article and compute its word count
and read time. -/
def create_blog_article_from_content (content topic : String) :
    BlogArticle :=
  let lines := pySplitLines content
  let title := extractTitle lines topic
  let sections := parseSections lines
  let keywords :=
    if strIn "한의원" topic then [topic, "한의원", "한방치료", "건강"]
    else [topic]
  let article : BlogArticle :=
    { title := title
      content := content
      sections := sections
      meta_tags := keywords.take 5
      keywords := keywords.take 10
      category := classify_category_simple topic }
  article.calculate_word_count.estimate_read_time

/-! ## Helper lemmas -/

/-- The first-match-wins domain loop awards exactly the `any`-style bonus:
every allow-list entry adds the same 0.2, so breaking at the first match
is equivalent to testing membership. -/
theorem domainBonus_eq_any (ds : List String) (url : String) :
    domainBonus ds url = if ds.any (fun d => strIn d url) then 2/10 else 0 := by
  induction ds with
  | nil => simp [domainBonus]
  | cons d ds ih =>
    cases hb : strIn d url <;> simp [domainBonus, hb, ih]

/-- The domain bonus is 0 or 0.2. -/
theorem domainBonus_cases (ds : List String) (url : String) :
    domainBonus ds url = 0 ∨ domainBonus ds url = 2/10 := by
  induction ds with
  | nil => exact Or.inl rfl
  | cons d ds ih =>
    cases hb : strIn d url <;> simp [domainBonus, hb, ih]

/-- The length sub-score lies in [0,1]. -/
theorem length_factor_mem (wc : Nat) :
    0 ≤ length_factor wc ∧ length_factor wc ≤ 1 := by
  unfold length_factor
  split_ifs <;> norm_num

/-- The structure sub-score lies in [0,1]. -/
theorem structure_factor_mem (sc : Nat) :
    0 ≤ structure_factor sc ∧ structure_factor sc ≤ 1 := by
  unfold structure_factor
  split_ifs <;> norm_num

/-- The metadata sub-score lies in [0,1]. -/
theorem metadata_factor_mem (a : BlogArticle) :
    0 ≤ metadata_factor a ∧ metadata_factor a ≤ 1 := by
  unfold metadata_factor
  split_ifs <;> exact ⟨le_min (by norm_num) (by norm_num), min_le_left _ _⟩

/-- The image-coverage sub-score lies in [0,1]. -/
theorem images_factor_mem (ic sc : Nat) :
    0 ≤ images_factor ic sc ∧ images_factor ic sc ≤ 1 := by
  simp only [images_factor]
  split_ifs <;> norm_num

/-! ## Claims -/

/-- C4: for every `CollectedContent`, after any `add_source` call (on an
arbitrary prior state, hence after each call of every call sequence)
`total_sources` equals
`len(basic_concepts) + len(latest_trends) + len(expert_opinions)`. -/
theorem C4_total_sources_invariant (c : CollectedContent) (s : SourceInfo) :
    (c.add_source s).total_sources =
      (c.add_source s).basic_concepts.length +
        (c.add_source s).latest_trends.length +
        (c.add_source s).expert_opinions.length := by
  unfold CollectedContent.add_source
  cases s.content_type <;> simp [List.length_append] <;> omega

/-- The credibility formula as the spec words it: base 0.5; +0.2 when the
lower-cased locator substring-matches **some** entry of the fixed
allow-list; +0.1 when the lower-cased title is longer than 10 characters
and contains a quality-signal substring; +0.1 flat recency bonus; clamped
to at most 1.0.  Comparison target for the first-match-wins loop of the
code. -/
def calculate_credibility_spec (sd : SourceData) : ℚ :=
  let url := pyLower (sd.url.getD "")
  let title := pyLower (sd.title.getD "")
  min 1 ((1/2 : ℚ) +
    (if trusted_domains.any (fun d => strIn d url) then 2/10 else 0) +
    (if 10 < title.length &&
        quality_title_keywords.any (fun k => strIn k title) then (1/10 : ℚ)
      else 0) +
    1/10)

/-- C6: `_calculate_credibility` is a pure, deterministic function (it is
a Lean function of its argument alone, so two calls on identical input
are definitionally equal); it computes exactly the spec's formula — the
first-match-wins allow-list loop awards the same +0.2 as an any-match
test — and its value always lies in [0,1]. -/
theorem C6_credibility_matches_spec_and_bounded (sd : SourceData) :
    calculate_credibility sd = calculate_credibility_spec sd ∧
    0 ≤ calculate_credibility sd ∧ calculate_credibility sd ≤ 1 := by
  have hspec : calculate_credibility sd = calculate_credibility_spec sd := by
    simp only [calculate_credibility, calculate_credibility_spec]
    rw [domainBonus_eq_any]
    split_ifs <;> first
      | rfl
      | (congr 1; ring)
  refine ⟨hspec, ?_, ?_⟩
  · rw [hspec]
    simp only [calculate_credibility_spec]
    refine le_min (by norm_num) ?_
    split_ifs <;> norm_num
  · rw [hspec]
    simp only [calculate_credibility_spec]
    exact min_le_left _ _

/-- The credibility sum of `_calculate_credibility` before the final
`min(1.0, score)` clamp. -/
def raw_credibility (sd : SourceData) : ℚ :=
  let url := pyLower (sd.url.getD "")
  let title := pyLower (sd.title.getD "")
  let score : ℚ := 1/2
  let score := score + domainBonus trusted_domains url
  let score :=
    if 10 < title.length &&
        quality_title_keywords.any (fun k => strIn k title) then
      score + 1/10
    else score
  score + 1/10

/-- C10: the unconditional +0.1 recency bonus on the 0.5 base makes 0.6
the minimum credibility, the bonuses sum to at most 0.4 so the 1.0 clamp
never takes effect (the clamped value equals the raw sum, which stays at
most 0.9), hence every produced source meets the collection stage's
high-quality threshold of 0.6. -/
theorem C10_credibility_range (sd : SourceData) :
    raw_credibility sd ≤ 9/10 ∧
    calculate_credibility sd = raw_credibility sd ∧
    6/10 ≤ calculate_credibility sd ∧
    calculate_credibility sd ≤ 9/10 ∧
    high_quality_threshold ≤ calculate_credibility sd := by
  have hraw_lo : 6/10 ≤ raw_credibility sd := by
    simp only [raw_credibility]
    rcases domainBonus_cases trusted_domains (pyLower (sd.url.getD ""))
      with h | h <;> rw [h] <;> split_ifs <;> norm_num
  have hraw_hi : raw_credibility sd ≤ 9/10 := by
    simp only [raw_credibility]
    rcases domainBonus_cases trusted_domains (pyLower (sd.url.getD ""))
      with h | h <;> rw [h] <;> split_ifs <;> norm_num
  have heq : calculate_credibility sd = raw_credibility sd := by
    simp only [calculate_credibility, raw_credibility]
    exact min_eq_right (by
      rcases domainBonus_cases trusted_domains (pyLower (sd.url.getD ""))
        with h | h <;> rw [h] <;> split_ifs <;> norm_num)
  refine ⟨hraw_hi, heq, ?_, ?_, ?_⟩
  · rw [heq]; exact hraw_lo
  · rw [heq]; exact hraw_hi
  · rw [heq]; exact hraw_lo

/-- C7: the quality score of `validate_generated_article` is the
unweighted arithmetic mean of exactly the four sub-scores (length,
structure, metadata completeness, image coverage); each sub-score lies in
[0,1] and therefore so does the overall score. -/
theorem C7_quality_score_bounded (a : BlogArticle) :
    quality_score a =
      (length_factor a.word_count + structure_factor a.sections.length +
        metadata_factor a +
        images_factor a.image_placeholders.length a.sections.length) / 4 ∧
    (0 ≤ length_factor a.word_count ∧ length_factor a.word_count ≤ 1) ∧
    (0 ≤ structure_factor a.sections.length ∧
      structure_factor a.sections.length ≤ 1) ∧
    (0 ≤ metadata_factor a ∧ metadata_factor a ≤ 1) ∧
    (0 ≤ images_factor a.image_placeholders.length a.sections.length ∧
      images_factor a.image_placeholders.length a.sections.length ≤ 1) ∧
    0 ≤ quality_score a ∧ quality_score a ≤ 1 := by
  obtain ⟨l0, l1⟩ := length_factor_mem a.word_count
  obtain ⟨s0, s1⟩ := structure_factor_mem a.sections.length
  obtain ⟨m0, m1⟩ := metadata_factor_mem a
  obtain ⟨i0, i1⟩ :=
    images_factor_mem a.image_placeholders.length a.sections.length
  refine ⟨rfl, ⟨l0, l1⟩, ⟨s0, s1⟩, ⟨m0, m1⟩, ⟨i0, i1⟩, ?_, ?_⟩
  · exact div_nonneg (by linarith) (by norm_num)
  · rw [quality_score, div_le_one (by norm_num)]
    linarith

/-- C9: `calculate_word_count` stores exactly `wordCountOf` of the body
text (a pure function of the body, which it leaves unchanged), re-running
it yields the same stored count; re-running `estimate_read_time` yields
the same stored read time; and the stored read time equals
`max 1 (word_count / 300)` (Nat division, Python's `//`) of the stored
word count after the call. -/
theorem C9_word_count_read_time_pure (a : BlogArticle) :
    (a.calculate_word_count).word_count = wordCountOf a.content ∧
    (a.calculate_word_count).content = a.content ∧
    ((a.calculate_word_count).calculate_word_count).word_count =
      (a.calculate_word_count).word_count ∧
    ((a.estimate_read_time).estimate_read_time).estimated_read_time =
      (a.estimate_read_time).estimated_read_time ∧
    (a.estimate_read_time).estimated_read_time =
      max 1 ((a.estimate_read_time).word_count / 300) := by
  refine ⟨rfl, rfl, rfl, ?_, ?_⟩
  · by_cases h : a.word_count = 0
    · by_cases hw : wordCountOf a.content = 0 <;>
        simp [BlogArticle.estimate_read_time,
          BlogArticle.calculate_word_count, h, hw]
    · simp [BlogArticle.estimate_read_time, h]
  · by_cases h : a.word_count = 0 <;>
      simp [BlogArticle.estimate_read_time,
        BlogArticle.calculate_word_count, h]

/-- An article whose stored `word_count` (0) is stale relative to its
body text: C3's concrete input. -/
def staleArticle : BlogArticle :=
  { title := "t", content := "hello" }

/-- The section added to `staleArticle`. -/
def staleSection : BlogSection :=
  { title := "s", content := "world wide", section_type := "general" }

/-- An article with a non-zero stored word count, for the read-time part
of amended C3. -/
def freshArticle : BlogArticle :=
  { title := "t", content := "hi", word_count := 5 }

/-- C3 counterexample: after an `add_section` call the stored
`word_count` (still the default 0) differs from the word count computed
from the updated body text (4), because `add_section` does not recompute
it. -/
theorem C3_counterexample :
    (staleArticle.add_section staleSection).word_count ≠
      wordCountOf ((staleArticle.add_section staleSection).content) := by
  decide

/-- C3 (amended): word count is a pure function of the body text and
read-time of the stored word count, but `add_section` itself does not
recompute the count — it leaves `word_count` unchanged, and the stored
count equals the count of the updated body only after an explicit
`calculate_word_count` call; `estimate_read_time` is a pure function of a
non-zero stored word count. -/
theorem C3_amended_word_count (a : BlogArticle) (s : BlogSection)
    (h : a.word_count ≠ 0) :
    (a.add_section s).word_count = a.word_count ∧
    ((a.add_section s).calculate_word_count).word_count =
      wordCountOf ((a.add_section s).content) ∧
    (a.estimate_read_time).estimated_read_time =
      max 1 (a.word_count / 300) := by
  refine ⟨?_, rfl, ?_⟩
  · cases hip : s.image_placeholder <;>
      simp [BlogArticle.add_section, hip]
  · simp [BlogArticle.estimate_read_time, h]

/-- Witness for amended C3 at `freshArticle`/`staleSection`. -/
theorem C3_amended_word_count_witness :
    freshArticle.word_count ≠ 0 ∧
    ((freshArticle.add_section staleSection).word_count =
        freshArticle.word_count ∧
      ((freshArticle.add_section staleSection).calculate_word_count).word_count =
        wordCountOf ((freshArticle.add_section staleSection).content) ∧
      (freshArticle.estimate_read_time).estimated_read_time =
        max 1 (freshArticle.word_count / 300)) :=
  ⟨by decide, C3_amended_word_count freshArticle staleSection (by decide)⟩

/-- `get` after `extend`: only the extended key changes. -/
theorem SearchResults.get_extend (r : SearchResults) (t t' : ContentType)
    (ss : List SourceInfo) :
    (r.extend t' ss).get t =
      if t' = t then r.get t ++ ss else r.get t := by
  cases t' <;> cases t <;>
    simp [SearchResults.extend, SearchResults.get]

/-- The initial `multi_search` dict maps every content type to `[]`. -/
theorem SearchResults.get_empty (t : ContentType) :
    ({} : SearchResults).get t = [] := by
  cases t <;> rfl

/-- A failed query's `_search_with_type` result is the empty list. -/
theorem search_with_type_error (q : SearchQuery) (e : String) :
    search_with_type q (Except.error e) = [] := rfl

/-- Unrolling the `multi_search` fold: each per-type result list is the
accumulator's list followed by the concatenated contributions of the
successful queries of that type. -/
theorem multi_search_go
    (qrs : List (SearchQuery × Except String PerplexityResponse))
    (acc : SearchResults) (t : ContentType) :
    (qrs.foldl (fun acc p => acc.extend p.1.content_type
        (search_with_type p.1 p.2)) acc).get t =
      acc.get t ++
        ((qrs.filter (fun p => decide (p.1.content_type = t) && p.2.isOk)).map
          (fun p => search_with_type p.1 p.2)).flatten := by
  induction qrs generalizing acc with
  | nil => simp
  | cons p qrs ih =>
    rw [List.foldl_cons, ih, List.filter_cons]
    by_cases ht : p.1.content_type = t
    · cases hok : p.2 with
      | ok r =>
        simp [SearchResults.get_extend, ht, hok, Except.isOk,
          Except.toBool, List.append_assoc]
      | error e =>
        simp [SearchResults.get_extend, ht, hok, Except.isOk,
          Except.toBool, search_with_type]
    · simp [SearchResults.get_extend, ht]

/-- C5: for every query list (each query paired with its underlying
`search` outcome), every per-type entry of the `multi_search` mapping is
exactly the concatenation of the contributions of the successful queries
of that type — so with N queries of which K fail, contributions come from
exactly the N−K successes; each failed query contributes the empty list
(it is logged inside `_search_with_type`, which swallows the exception,
so the call as a whole never raises); and when every query fails the
mapping is empty for every content type. -/
theorem C5_multi_search_isolation
    (qrs : List (SearchQuery × Except String PerplexityResponse)) :
    (∀ t, (multi_search qrs).get t =
      ((qrs.filter (fun p => decide (p.1.content_type = t) && p.2.isOk)).map
        (fun p => search_with_type p.1 p.2)).flatten) ∧
    (∀ q e, search_with_type q (Except.error e) = []) ∧
    ((∀ p ∈ qrs, p.2.isOk = false) →
      ∀ t, (multi_search qrs).get t = []) := by
  have hmain : ∀ t, (multi_search qrs).get t =
      ((qrs.filter (fun p => decide (p.1.content_type = t) && p.2.isOk)).map
        (fun p => search_with_type p.1 p.2)).flatten := by
    intro t
    have h := multi_search_go qrs {} t
    rw [SearchResults.get_empty] at h
    simpa [multi_search] using h
  refine ⟨hmain, fun q e => rfl, fun hall t => ?_⟩
  rw [hmain t]
  have hfil :
      qrs.filter (fun p => decide (p.1.content_type = t) && p.2.isOk) = [] := by
    rw [List.filter_eq_nil_iff]
    intro p hp
    simp [hall p hp]
  rw [hfil]
  rfl

/-- Two queries whose underlying `search` calls both fail: the concrete
all-fail input for C5's witness. -/
def allFailQrs : List (SearchQuery × Except String PerplexityResponse) :=
  [({ query := "커피 기본 개념 정의 설명", content_type := .basic_concept,
      max_results := 3 }, Except.error "HTTPError"),
   ({ query := "커피 2024 최신 트렌드 동향 뉴스", content_type := .latest_trend,
      max_results := 4 }, Except.error "HTTPError")]

/-- Witness for C5: on the concrete all-fail query list the mapping is
empty for every content type. -/
theorem C5_multi_search_isolation_witness :
    (multi_search allFailQrs).get ContentType.basic_concept = [] ∧
    (multi_search allFailQrs).get ContentType.latest_trend = [] ∧
    (multi_search allFailQrs).get ContentType.expert_opinion = [] :=
  ⟨(C5_multi_search_isolation allFailQrs).2.2 (by decide) .basic_concept,
   (C5_multi_search_isolation allFailQrs).2.2 (by decide) .latest_trend,
   (C5_multi_search_isolation allFailQrs).2.2 (by decide) .expert_opinion⟩

/-- Reading the undeclared `practical_cases` attribute fails on every
`CollectedContent` value. -/
theorem getListAttr_practical_cases (c : CollectedContent) :
    c.getListAttr "practical_cases" = none := rfl

/-- The collection node can never return its success update: with zero
sources it takes the explicit failure branch, and with at least one
source the `node_outputs` construction raises `AttributeError` on
`practical_cases` and the exception handler returns the failure update. -/
theorem information_collection_node_always_fails (topic : String)
    (results : SearchResults) :
    (information_collection_node topic results).status =
      WorkflowStatus.failed ∧
    (information_collection_node topic results).collected_content = none := by
  simp only [information_collection_node, getListAttr_practical_cases]
  split_ifs <;> exact ⟨rfl, rfl⟩

/-- A `multi_search` result holding exactly one (basic-concept) source:
the concrete failing input for C1. -/
def oneSourceResults : SearchResults :=
  { basic_concept :=
      [{ url := "https://example.com/source_1"
         title := "'커피' 관련 정보 1"
         summary := "요약"
         credibility_score := 7/10
         content_type := .basic_concept }] }

/-- C1 (code bug): on a run that collects one source the collection node
does not return the success update (`status=writing`, progress 100,
collected content) the claim describes — building `node_outputs` reads
the undeclared `practical_cases` field, pydantic raises `AttributeError`,
and the `except` handler returns `status=failed` with no collected
content and no progress value. -/
theorem C1_collection_stage_code_bug :
    (information_collection_node "커피" oneSourceResults).status =
      WorkflowStatus.failed ∧
    (information_collection_node "커피" oneSourceResults).collected_content =
      none ∧
    (information_collection_node "커피" oneSourceResults).progress_percentage =
      none :=
  ⟨rfl, rfl, rfl⟩

/-- A populated `CollectedContent` (one basic-concept source added through
`add_source`): the concrete failing input for C2. -/
def sampleCollected : CollectedContent :=
  ({ topic := "커피" } : CollectedContent).add_source
    { url := "https://example.com/source_1"
      title := "'커피' 관련 정보 1"
      summary := "요약"
      credibility_score := 7/10
      content_type := .basic_concept }

/-- C2 (code bug): the `practical_cases` slot cannot be read at all —
`CollectedContent` declares no such field, so attribute access yields
`AttributeError` rather than an empty sequence, and both referencing
paths of the writing stage (`validate_content_for_writing`,
`create_content_summary`) raise instead of treating it as empty dead
code. -/
theorem C2_practical_cases_code_bug :
    sampleCollected.getListAttr "practical_cases" = none ∧
    validate_content_for_writing sampleCollected =
      Except.error practicalCasesError ∧
    create_content_summary sampleCollected =
      Except.error practicalCasesError :=
  ⟨rfl, rfl, rfl⟩

/-- The body text accumulated for a run of lines: each line followed by
the `'\n'` the loop appends. -/
def joinNL (ls : List String) : String :=
  ls.foldr (fun l s => l ++ "\n" ++ s) ""

/-- `joinNL` unfolded on a head line. -/
theorem joinNL_cons (l : String) (ls : List String) :
    joinNL (l :: ls) = l ++ "\n" ++ joinNL ls := rfl

/-- Running the section loop over heading-free lines just extends the open
section's body and flushes it at the end of the text. -/
theorem sectionLoop_no_h2 (ls : List String)
    (h : ∀ x ∈ ls, isH2Line x = false) (cur : Option String) (acc : String) :
    sectionLoop ls cur acc = flushSection cur (acc ++ joinNL ls) := by
  induction ls generalizing acc with
  | nil => simp [sectionLoop, joinNL, String.append_empty]
  | cons l ls ih =>
    have hl : isH2Line l = false := h l (List.mem_cons_self l ls)
    have hrest : ∀ x ∈ ls, isH2Line x = false :=
      fun x hx => h x (List.mem_cons_of_mem l hx)
    simp only [sectionLoop, hl, Bool.false_eq_true, if_false]
    rw [ih hrest, joinNL_cons]
    congr 1
    simp [String.append_assoc]

/-- A heading-free prefix of the lines only extends the accumulated body
before the loop continues with the rest. -/
theorem sectionLoop_append_no_h2 (pre : List String)
    (h : ∀ x ∈ pre, isH2Line x = false) (rest : List String)
    (cur : Option String) (acc : String) :
    sectionLoop (pre ++ rest) cur acc =
      sectionLoop rest cur (acc ++ joinNL pre) := by
  induction pre generalizing acc with
  | nil => simp [joinNL, String.append_empty]
  | cons l pre ih =>
    have hl : isH2Line l = false := h l (List.mem_cons_self l pre)
    have hrest : ∀ x ∈ pre, isH2Line x = false :=
      fun x hx => h x (List.mem_cons_of_mem l hx)
    rw [List.cons_append]
    simp only [sectionLoop, hl, Bool.false_eq_true, if_false]
    rw [ih hrest, joinNL_cons]
    congr 1
    simp [String.append_assoc]

/-- Parsing lines that consist of a heading-free preamble, a first `## `
heading, its heading-free body lines, a second `## ` heading and its
heading-free trailing body lines produces exactly the two sections, the
preamble being discarded. -/
theorem parseSections_two (pre mid post : List String) (a b : String)
    (hpre : ∀ x ∈ pre, isH2Line x = false)
    (hmid : ∀ x ∈ mid, isH2Line x = false)
    (hpost : ∀ x ∈ post, isH2Line x = false)
    (ha : isH2Line a = true) (hb : isH2Line b = true) :
    parseSections (pre ++ a :: (mid ++ b :: post)) =
      [{ title := h2Title a, content := pyStrip (joinNL mid),
         section_type := "general" },
       { title := h2Title b, content := pyStrip (joinNL post),
         section_type := "general" }] := by
  unfold parseSections
  rw [sectionLoop_append_no_h2 pre hpre]
  simp only [sectionLoop, ha, if_true, flushSection]
  rw [sectionLoop_append_no_h2 mid hmid]
  simp only [sectionLoop, hb, if_true, flushSection]
  rw [sectionLoop_no_h2 post hpost]
  simp [flushSection, String.empty_append]

/-- When the filter of a list is a singleton, `find?` returns exactly that
element. -/
theorem find?_of_filter_singleton {α : Type} (p : α → Bool) (l : List α)
    (x : α) (h : l.filter p = [x]) : l.find? p = some x := by
  induction l with
  | nil => simp at h
  | cons y l ih =>
    rw [List.filter_cons] at h
    by_cases hy : p y
    · rw [List.find?_cons_of_pos _ hy]
      simp only [hy, if_true] at h
      obtain ⟨rfl, -⟩ := List.cons_eq_cons.mp h
      rfl
    · rw [List.find?_cons_of_neg _ hy]
      simp only [hy, Bool.false_eq_true, if_false] at h
      exact ih h

/-- `estimate_read_time` only touches the word-count/read-time fields. -/
theorem estimate_read_time_title (a : BlogArticle) :
    (a.estimate_read_time).title = a.title := by
  by_cases h : a.word_count = 0 <;>
    simp [BlogArticle.estimate_read_time, BlogArticle.calculate_word_count, h]

/-- `estimate_read_time` leaves the parsed sections unchanged. -/
theorem estimate_read_time_sections (a : BlogArticle) :
    (a.estimate_read_time).sections = a.sections := by
  by_cases h : a.word_count = 0 <;>
    simp [BlogArticle.estimate_read_time, BlogArticle.calculate_word_count, h]

/-- The title of the built article is the extracted (or fallback) title. -/
theorem create_blog_article_title (content topic : String) :
    (create_blog_article_from_content content topic).title =
      extractTitle (pySplitLines content) topic := by
  simp only [create_blog_article_from_content]
  rw [estimate_read_time_title]
  rfl

/-- The sections of the built article are the parsed sections. -/
theorem create_blog_article_sections (content topic : String) :
    (create_blog_article_from_content content topic).sections =
      parseSections (pySplitLines content) := by
  simp only [create_blog_article_from_content]
  rw [estimate_read_time_sections]
  rfl

/-- `extractTitle` on lines with exactly one first-level heading. -/
theorem extractTitle_of_unique_h1 (lines : List String) (l topic : String)
    (h : lines.filter isH1Line = [l]) :
    extractTitle lines topic = h1Title l := by
  unfold extractTitle
  rw [find?_of_filter_singleton _ _ _ h]

/-- `extractTitle` falls back when no line is a first-level heading. -/
theorem extractTitle_of_no_h1 (lines : List String) (topic : String)
    (h : lines.filter isH1Line = []) :
    extractTitle lines topic = topic ++ "에 대한 완전 가이드" := by
  unfold extractTitle
  rw [List.find?_eq_none.mpr ?_]
  intro x hx
  have := List.filter_eq_nil_iff.mp h x hx
  simpa using this

/-- C8: for every raw response whose lines split into a heading-free
preamble, a first `## ` heading `a`, heading-free lines `mid`, a second
`## ` heading `b` and heading-free lines `post` (i.e. the text contains
exactly two lines whose stripped form starts with `## `), and containing
exactly one line `l` whose stripped form starts with `# `, the parsed
article has exactly the 2 sections titled with the two second-level
headings, each body accumulating the following lines (joined with the
appended newlines, then stripped) up to the next heading or the end of
text, and the article title is the text of the first-level heading;
moreover, for any response with no first-level heading the fallback title
`"{topic}에 대한 완전 가이드"` is used. -/
theorem C8_parsed_article_sections_and_title
    (content topic : String) (pre mid post : List String) (a b l : String)
    (hsplit : pySplitLines content = pre ++ a :: (mid ++ b :: post))
    (hpre : ∀ x ∈ pre, isH2Line x = false)
    (hmid : ∀ x ∈ mid, isH2Line x = false)
    (hpost : ∀ x ∈ post, isH2Line x = false)
    (ha : isH2Line a = true) (hb : isH2Line b = true)
    (hh1 : (pySplitLines content).filter isH1Line = [l]) :
    (pySplitLines content).filter isH2Line = [a, b] ∧
    (create_blog_article_from_content content topic).sections =
      [{ title := h2Title a, content := pyStrip (joinNL mid),
         section_type := "general" },
       { title := h2Title b, content := pyStrip (joinNL post),
         section_type := "general" }] ∧
    (create_blog_article_from_content content topic).sections.length = 2 ∧
    (create_blog_article_from_content content topic).title = h1Title l ∧
    (∀ content' topic' : String,
      (pySplitLines content').filter isH1Line = [] →
      (create_blog_article_from_content content' topic').title =
        topic' ++ "에 대한 완전 가이드") := by
  have hpre0 : pre.filter isH2Line = [] :=
    List.filter_eq_nil_iff.mpr (by intro x hx; simp [hpre x hx])
  have hmid0 : mid.filter isH2Line = [] :=
    List.filter_eq_nil_iff.mpr (by intro x hx; simp [hmid x hx])
  have hpost0 : post.filter isH2Line = [] :=
    List.filter_eq_nil_iff.mpr (by intro x hx; simp [hpost x hx])
  have hcount : (pySplitLines content).filter isH2Line = [a, b] := by
    rw [hsplit]
    simp [List.filter_append, List.filter_cons, ha, hb, hpre0, hmid0, hpost0]
  have hsec :
      (create_blog_article_from_content content topic).sections =
        [{ title := h2Title a, content := pyStrip (joinNL mid),
           section_type := "general" },
         { title := h2Title b, content := pyStrip (joinNL post),
           section_type := "general" }] := by
    rw [create_blog_article_sections, hsplit,
      parseSections_two pre mid post a b hpre hmid hpost ha hb]
  refine ⟨hcount, hsec, by rw [hsec]; rfl, ?_, ?_⟩
  · rw [create_blog_article_title,
      extractTitle_of_unique_h1 (pySplitLines content) l topic hh1]
  · intro content' topic' h0
    rw [create_blog_article_title,
      extractTitle_of_no_h1 (pySplitLines content') topic' h0]

/-- A concrete raw response with one `# ` heading and two `## ` headings,
for C8's witness. -/
def c8Content : String :=
  "# Title\npreamble\n## First\nbody one\n## Second\nbody two"

/-- Witness for C8 at `c8Content`: two sections with the expected titles
and bodies, the extracted `# ` title, and the fallback title on a
heading-free response. -/
theorem C8_parsed_article_sections_and_title_witness :
    (pySplitLines c8Content).filter isH2Line = ["## First", "## Second"] ∧
    (create_blog_article_from_content c8Content "커피").sections =
      [{ title := "First", content := "body one",
         section_type := "general" },
       { title := "Second", content := "body two",
         section_type := "general" }] ∧
    (create_blog_article_from_content c8Content "커피").sections.length = 2 ∧
    (create_blog_article_from_content c8Content "커피").title = "Title" ∧
    (create_blog_article_from_content "그냥 본문" "커피").title =
      "커피에 대한 완전 가이드" := by
  obtain ⟨h0, h1, h2, h3, h4⟩ :=
    C8_parsed_article_sections_and_title c8Content "커피"
      ["# Title", "preamble"] ["body one"] ["body two"]
      "## First" "## Second" "# Title"
      (by decide) (by decide) (by decide) (by decide) (by decide)
      (by decide) (by decide)
  refine ⟨h0, ?_, h2, ?_, h4 "그냥 본문" "커피" (by decide)⟩
  · rw [h1]
    decide
  · rw [h3]
    decide

end WordpressAutomation
